import Mathlib

/-!
Shallow embedding of `src/libplacebo_filter.cpp` (class `LibplaceboFilter`):
lifecycle of an FFmpeg filter-graph session (handles: `filter_graph`,
`buffersrc_ctx`, `buffersink_ctx`, `device_ctx`), the `process_frame`
tri-state protocol, the `flush` drain loop, and PTS rescaling via
the FFmpeg function `av_rescale_q`.

The external filter graph (libavfilter) is modelled by environment records
that fix the outcome of each external call (`av_frame_alloc`,
`av_buffersrc_add_frame`, `av_buffersink_get_frame`); the branching of the session code
 on those outcomes is translated line by line from the source.
-/

/-- The AVRational time-base record of FFmpeg: numerator and denominator. -/
structure AVRational where
  num : Int
  den : Int
deriving DecidableEq, Repr

/-- An output frame as this core observes it: its presentation timestamp
and an opaque payload identity standing for the pixel data. -/
structure AVFrameData where
  pts : Int
  payload : Nat
deriving DecidableEq, Repr

/-- AVERROR(EAGAIN) on Linux: -EAGAIN = -11. -/
def AVERROR_EAGAIN : Int := -11

/-- AVERROR_EOF = FFERRTAG of EOF-space, a fixed negative code. -/
def AVERROR_EOF : Int := -541478725

/-- AVERROR(ENOMEM) on Linux: -ENOMEM = -12. -/
def AVERROR_ENOMEM : Int := -12

/-- INT64_MIN, the error return of `av_rescale_rnd` on invalid arguments. -/
def INT64_MIN : Int := -(2 ^ 63)

/-- FFmpeg `av_rescale_rnd` specialised to AV_ROUND_NEAR_INF (the rounding
used by plain `av_rescale_q`): computes a * b / c rounded to the nearest
integer, halves away from zero.  For a < 0 the C code recurses on -a with
the same rounding and negates.  C integer division on the nonnegative
operands occurring here agrees with Euclidean division.  (The C fallback
paths for 64-bit overflow compute the same mathematical value, so the
unbounded-Int model is faithful; the INT64_MIN-input clamp is an overflow
artefact outside this model.) -/
def av_rescale_rnd (a b c : Int) : Int :=
  if c ≤ 0 ∨ b < 0 then INT64_MIN
  else if a < 0 then -(((-a) * b + c / 2) / c)
  else (a * b + c / 2) / c

/-- FFmpeg `av_rescale_q`: rescale a timestamp from time base `bq` to time
base `cq`, i.e. a * (bq.num/bq.den) / (cq.num/cq.den) rounded near. -/
def av_rescale_q (a : Int) (bq cq : AVRational) : Int :=
  av_rescale_rnd a (bq.num * cq.den) (cq.num * bq.den)

/-- The fields of class `LibplaceboFilter`: four opaque owned handles
(each `none` when the C++ pointer is null), the immutable target
dimensions and shader path, and the output time base captured in `init`.
Opaque handles are identified by a `Nat` tag. -/
structure FilterState where
  filter_graph : Option Nat
  buffersrc_ctx : Option Nat
  buffersink_ctx : Option Nat
  device_ctx : Option Nat
  output_width : Int
  output_height : Int
  shader_path : String
  output_time_base : AVRational
deriving DecidableEq, Repr

/-- The constructor `LibplaceboFilter(width, height, shader_path)`: all
handles null; `output_time_base` is an uninitialised member in the C++
(captured only by `init`), modelled by an arbitrary default. -/
def LibplaceboFilter.construct (width height : Int) (shader_path : String) : FilterState :=
  { filter_graph := none, buffersrc_ctx := none, buffersink_ctx := none,
    device_ctx := none, output_width := width, output_height := height,
    shader_path := shader_path, output_time_base := { num := 0, den := 1 } }

/-- The four release actions the destructor can perform, one per handle. -/
inductive Release where
  | free_buffersrc
  | free_buffersink
  | unref_device
  | free_graph
deriving DecidableEq, Repr

/-- The destructor `~LibplaceboFilter`: for each handle in source order
(buffersrc, buffersink, device, graph), if it is non-null, release it and
set it to null.  Returns the sequence of release actions performed and
the final field state. -/
def LibplaceboFilter.destructor (s : FilterState) : List Release × FilterState :=
  let e1 : List Release := if s.buffersrc_ctx.isSome then [Release.free_buffersrc] else []
  let e2 : List Release := if s.buffersink_ctx.isSome then [Release.free_buffersink] else []
  let e3 : List Release := if s.device_ctx.isSome then [Release.unref_device] else []
  let e4 : List Release := if s.filter_graph.isSome then [Release.free_graph] else []
  (e1 ++ e2 ++ e3 ++ e4,
   { s with buffersrc_ctx := none, buffersink_ctx := none,
            device_ctx := none, filter_graph := none })

/-- Modelled from the spec: the collaborators of `init` whose code is not
part of this core.  `filepath_is_readable` and `find_resource_file` are
the fsutils resource locator ("given a relative path fragment, returns an
absolute readable path or fails if not found"); `init_libplacebo` is the
pipeline builder ("given decoder config, target dimensions, and a
resolved shader path, returns bound graph/endpoint/device handles or
fails"), so a build failure yields no handle at all. -/
structure InitEnv where
  filepath_is_readable : String → Bool
  find_resource_file : String → Option String
  init_libplacebo : String → Option (Nat × Nat × Nat × Nat)

/-- Shader path resolution of `init` (source lines 44-52): if the shader
path itself is readable use it verbatim, otherwise look up
models/<shader_path>.glsl through the resource locator. -/
def resolve_shader_full_path (env : InitEnv) (shader_path : String) : Option String :=
  if env.filepath_is_readable shader_path then some shader_path
  else env.find_resource_file ("models/" ++ shader_path ++ ".glsl")

/-- A distinguishable negative build-failure code returned when the
pipeline cannot be built (the spec-modelled builder reports failure). -/
def build_failure_code : Int := -1

/-- `LibplaceboFilter::init` (source lines 42-67): resolve the shader
path, save the encoder time base into `output_time_base`, then call the
builder `init_libplacebo`, which on success binds all four handles.  A
failed resolution reaches the builder with no readable path and therefore
fails the build (spec-modelled collaborator); on any failure no handle is
bound. -/
def LibplaceboFilter.init (env : InitEnv) (s : FilterState) (enc_time_base : AVRational) :
    Int × FilterState :=
  let s1 := { s with output_time_base := enc_time_base }
  match resolve_shader_full_path env s.shader_path with
  | none => (build_failure_code, s1)
  | some p =>
    match env.init_libplacebo p with
    | none => (build_failure_code, s1)
    | some (g, src, sink, dev) =>
      (0, { s1 with
              filter_graph := some g
              buffersrc_ctx := some src
              buffersink_ctx := some sink
              device_ctx := some dev })

/-- Rescale the PTS of a frame from time base `src` to time base `dst`
(the assignment at source lines 99-100 and 131-132). -/
def rescale_frame (src dst : AVRational) (f : AVFrameData) : AVFrameData :=
  { f with pts := av_rescale_q f.pts src dst }

/-- The tri-state return value of `process_frame`: a produced frame
(valid pointer), the not-yet-ready sentinel ((AVFrame*)-1), or failure
(nullptr). -/
inductive ProcessResult where
  | frame (f : AVFrameData)
  | not_ready
  | failure
deriving DecidableEq, Repr

/-- Outcomes of the external calls made by one `process_frame` call:
whether `av_frame_alloc` succeeds, the return of `av_buffersrc_add_frame`,
the return of `av_buffersink_get_frame` together with the frame it fills
on success, and the buffersink input time base. -/
structure ProcEnv where
  alloc_ok : Bool
  add_ret : Int
  sink_ret : Int
  sink_frame : AVFrameData
  sink_time_base : AVRational
deriving DecidableEq, Repr

/-- What one `process_frame` call did: its result, how many output-frame
containers it allocated (0 or 1) and how many it freed, and the session
state after the call.  A container is leaked when it was allocated but
neither freed nor returned as the produced frame. -/
structure ProcOut where
  result : ProcessResult
  allocated : Nat
  freed : Nat
  state : FilterState
deriving DecidableEq, Repr

/-- `LibplaceboFilter::process_frame` (source lines 69-104), translated
branch by branch:
allocate the output frame (failure: return null, nothing allocated);
feed the input to buffersrc (negative: return null — the C code does NOT
free the allocated container on this path);
pull from buffersink (negative: free the container, then EAGAIN and EOF
both return the (AVFrame*)-1 sentinel, any other negative returns null);
on success rescale the PTS to `output_time_base` and return the frame. -/
def LibplaceboFilter.process_frame (s : FilterState) (env : ProcEnv)
    (_input_frame : AVFrameData) : ProcOut :=
  if env.alloc_ok = false then
    { result := ProcessResult.failure, allocated := 0, freed := 0, state := s }
  else if env.add_ret < 0 then
    { result := ProcessResult.failure, allocated := 1, freed := 0, state := s }
  else if env.sink_ret < 0 then
    if env.sink_ret ≠ AVERROR_EAGAIN ∧ env.sink_ret ≠ AVERROR_EOF then
      { result := ProcessResult.failure, allocated := 1, freed := 1, state := s }
    else
      { result := ProcessResult.not_ready, allocated := 1, freed := 1, state := s }
  else
    { result := ProcessResult.frame (rescale_frame env.sink_time_base s.output_time_base env.sink_frame),
      allocated := 1, freed := 0, state := s }

/-- External outcomes of one iteration inside the `flush` drain loop:
whether `av_frame_alloc` succeeds, and the return of
`av_buffersink_get_frame` with the frame it fills on success. -/
structure FlushStep where
  alloc_ok : Bool
  sink_ret : Int
  sink_frame : AVFrameData
deriving DecidableEq, Repr

/-- Outcomes of the external calls made by one `flush` call: the return
of the EOF submission `av_buffersrc_add_frame(buffersrc, NULL)`, the
successive buffersink outcomes consumed by the drain loop, and the
buffersink input time base. -/
structure FlushEnv where
  add_ret : Int
  steps : List FlushStep
  sink_time_base : AVRational
deriving DecidableEq, Repr

/-- The drain loop of `flush` (source lines 114-136): each iteration
allocates a container (failure: return AVERROR(ENOMEM)), pulls from
buffersink; EAGAIN or EOF frees the container and ends the loop with
success; any other negative frees the container and returns that code;
otherwise the PTS of the frame is rescaled and the frame appended to the
collector.  The step list models the successive answers of the graph; a
drained graph answers EOF, so exhausting the list ends the loop the same
way. -/
def flush_loop (src_tb dst_tb : AVRational) :
    List FlushStep → List AVFrameData → Int × List AVFrameData
  | [], acc => (0, acc)
  | step :: rest, acc =>
    if step.alloc_ok = false then (AVERROR_ENOMEM, acc)
    else if step.sink_ret = AVERROR_EAGAIN ∨ step.sink_ret = AVERROR_EOF then (0, acc)
    else if step.sink_ret < 0 then (step.sink_ret, acc)
    else flush_loop src_tb dst_tb rest (acc ++ [rescale_frame src_tb dst_tb step.sink_frame])

/-- `LibplaceboFilter::flush` (source lines 106-139): submit the EOF
marker to buffersrc (negative: return that code immediately), then drain
every remaining frame into `processed_frames`; returns the status code,
the collector, and the session state after the call. -/
def LibplaceboFilter.flush (s : FilterState) (env : FlushEnv)
    (processed_frames : List AVFrameData) : Int × List AVFrameData × FilterState :=
  if env.add_ret < 0 then (env.add_ret, processed_frames, s)
  else
    let r := flush_loop env.sink_time_base s.output_time_base env.steps processed_frames
    (r.1, r.2, s)

/-- All four session handles are non-null. -/
def handles_all_non_null (s : FilterState) : Prop :=
  s.filter_graph ≠ none ∧ s.buffersrc_ctx ≠ none ∧
  s.buffersink_ctx ≠ none ∧ s.device_ctx ≠ none

/-- All four session handles are null. -/
def handles_all_null (s : FilterState) : Prop :=
  s.filter_graph = none ∧ s.buffersrc_ctx = none ∧
  s.buffersink_ctx = none ∧ s.device_ctx = none

instance (s : FilterState) : Decidable (handles_all_non_null s) := by
  unfold handles_all_non_null; infer_instance

instance (s : FilterState) : Decidable (handles_all_null s) := by
  unfold handles_all_null; infer_instance

/-- Whether the destructor has a handle to release for a given action. -/
def release_applies (s : FilterState) : Release → Bool
  | Release.free_buffersrc => s.buffersrc_ctx.isSome
  | Release.free_buffersink => s.buffersink_ctx.isSome
  | Release.unref_device => s.device_ctx.isSome
  | Release.free_graph => s.filter_graph.isSome

/-! Concrete fixtures used by witness theorems. -/

/-- A 1/25 time base (decoder side, attached to the buffersink input). -/
def tb_in : AVRational := { num := 1, den := 25 }

/-- A 1/30 time base (encoder side, the captured output time base). -/
def tb_out : AVRational := { num := 1, den := 30 }

/-- A freshly constructed, uninitialised session. -/
def state0 : FilterState := LibplaceboFilter.construct 1920 1080 "upscale"

/-- A session after a successful initialize: all four handles bound and
the output time base captured. -/
def state_init : FilterState :=
  { state0 with
      filter_graph := some 1
      buffersrc_ctx := some 2
      buffersink_ctx := some 3
      device_ctx := some 4
      output_time_base := tb_out }

/-- A plain input frame. -/
def frame0 : AVFrameData := { pts := 0, payload := 0 }

/-- A buffered frame with PTS 0. -/
def fA : AVFrameData := { pts := 0, payload := 1 }

/-- A buffered frame with PTS 5. -/
def fB : AVFrameData := { pts := 5, payload := 2 }

/-- Environment where the buffersink answers AVERROR_EOF while feeding. -/
def env_eof : ProcEnv :=
  { alloc_ok := true, add_ret := 0, sink_ret := AVERROR_EOF,
    sink_frame := frame0, sink_time_base := tb_in }

/-- Environment where `av_buffersrc_add_frame` fails (submission failure). -/
def env_addfail : ProcEnv :=
  { alloc_ok := true, add_ret := -22, sink_ret := 0,
    sink_frame := frame0, sink_time_base := tb_in }

/-- A drain-loop step that successfully produces frame `f`. -/
def step_of (f : AVFrameData) : FlushStep :=
  { alloc_ok := true, sink_ret := 0, sink_frame := f }

/-- The terminal drain-loop step: buffersink reports AVERROR_EOF. -/
def step_eof : FlushStep :=
  { alloc_ok := true, sink_ret := AVERROR_EOF, sink_frame := frame0 }

/-- A drain-loop step where buffersink reports a fatal error (-22). -/
def step_err : FlushStep :=
  { alloc_ok := true, sink_ret := -22, sink_frame := frame0 }

/-- Flush environment: two buffered frames, then end-of-stream. -/
def env_drain : FlushEnv :=
  { add_ret := 0, steps := [step_of fA, step_of fB, step_eof],
    sink_time_base := tb_in }

/-- Flush environment: one buffered frame, then a fatal retrieval error. -/
def env_err : FlushEnv :=
  { add_ret := 0, steps := [step_of fA, step_err], sink_time_base := tb_in }

/-- Flush environment where the EOF submission itself fails. -/
def env_flush_addfail : FlushEnv :=
  { add_ret := -5, steps := [step_of fA], sink_time_base := tb_in }

/-- Init environment where nothing is readable and the build fails. -/
def env_fail : InitEnv :=
  { filepath_is_readable := fun _ => false,
    find_resource_file := fun _ => none,
    init_libplacebo := fun _ => none }

/-! Helper lemmas shared between several claim proofs. -/

/-- `process_frame` writes no session field: every branch of the source
returns with the member fields it started with. -/
theorem process_frame_state_eq (s : FilterState) (env : ProcEnv) (f : AVFrameData) :
    (LibplaceboFilter.process_frame s env f).state = s := by
  unfold LibplaceboFilter.process_frame
  split
  · rfl
  · split
    · rfl
    · split
      · split
        · rfl
        · rfl
      · rfl

/-- `flush` writes no session field. -/
theorem flush_state_eq (s : FilterState) (env : FlushEnv) (c : List AVFrameData) :
    (LibplaceboFilter.flush s env c).2.2 = s := by
  unfold LibplaceboFilter.flush
  split
  · rfl
  · rfl

/-- C1: every `process_frame` call returns exactly one of the three
mutually exclusive outcomes (produced frame, not-yet-ready sentinel,
failure), and with the container allocated and the submission accepted, a
buffersink answer of EAGAIN or of AVERROR_EOF is mapped to the same
not-yet-ready sentinel, indistinguishable to the caller. -/
theorem process_frame_tri_state (s : FilterState) (env : ProcEnv) (f : AVFrameData) :
    (((∃ g, (LibplaceboFilter.process_frame s env f).result = ProcessResult.frame g) ∧
        (LibplaceboFilter.process_frame s env f).result ≠ ProcessResult.not_ready ∧
        (LibplaceboFilter.process_frame s env f).result ≠ ProcessResult.failure) ∨
      ((LibplaceboFilter.process_frame s env f).result = ProcessResult.not_ready ∧
        (∀ g, (LibplaceboFilter.process_frame s env f).result ≠ ProcessResult.frame g) ∧
        (LibplaceboFilter.process_frame s env f).result ≠ ProcessResult.failure) ∨
      ((LibplaceboFilter.process_frame s env f).result = ProcessResult.failure ∧
        (∀ g, (LibplaceboFilter.process_frame s env f).result ≠ ProcessResult.frame g) ∧
        (LibplaceboFilter.process_frame s env f).result ≠ ProcessResult.not_ready)) ∧
    (env.alloc_ok = true → 0 ≤ env.add_ret →
      env.sink_ret = AVERROR_EAGAIN ∨ env.sink_ret = AVERROR_EOF →
      (LibplaceboFilter.process_frame s env f).result = ProcessResult.not_ready) := by
  constructor
  · rcases hr : (LibplaceboFilter.process_frame s env f).result with g | _ | _
    · exact Or.inl ⟨⟨g, rfl⟩, by simp, by simp⟩
    · exact Or.inr (Or.inl ⟨rfl, by simp, by simp⟩)
    · exact Or.inr (Or.inr ⟨rfl, by simp, by simp⟩)
  · intro h1 h2 h3
    have hb : ¬ env.alloc_ok = false := by simp [h1]
    have ha : ¬ env.add_ret < 0 := by omega
    rcases h3 with h3 | h3 <;>
      simp [LibplaceboFilter.process_frame, hb, ha, h3, AVERROR_EAGAIN, AVERROR_EOF]

/-- Witness for C1 at concrete inputs: with allocation and submission
succeeding, a pipeline end-of-stream answer during normal feeding yields
the not-yet-ready sentinel. -/
theorem process_frame_tri_state_witness :
    env_eof.alloc_ok = true ∧ 0 ≤ env_eof.add_ret ∧
    (LibplaceboFilter.process_frame state_init env_eof frame0).result = ProcessResult.not_ready :=
  ⟨rfl, by decide,
    (process_frame_tri_state state_init env_eof frame0).2 rfl (by decide) (Or.inr rfl)⟩

/-- C2 (code bug evidence): when `av_buffersrc_add_frame` fails, the
source returns nullptr without freeing the output frame container that
the call allocated — the container is neither returned nor released, so
this exit path leaks it, contrary to the no-leak postcondition.  The
model counts one allocation and zero frees on that path. -/
theorem process_frame_submit_fail_leaks :
    (LibplaceboFilter.process_frame state_init env_addfail frame0).result = ProcessResult.failure ∧
    (LibplaceboFilter.process_frame state_init env_addfail frame0).allocated = 1 ∧
    (LibplaceboFilter.process_frame state_init env_addfail frame0).freed = 0 := by
  decide

/-- C6: the destructor performs exactly the releases whose handle is
non-null, in the fixed source order buffersrc (ingress), buffersink
(egress), device context, filter graph; afterwards all four handles are
null and the remaining fields are untouched; on a session whose handles
are all null (never initialized, or initialize failed) it performs no
release at all. -/
theorem destructor_release_order (s : FilterState) :
    (LibplaceboFilter.destructor s).1 =
      ([Release.free_buffersrc, Release.free_buffersink, Release.unref_device,
        Release.free_graph].filter (release_applies s)) ∧
    handles_all_null (LibplaceboFilter.destructor s).2 ∧
    ((LibplaceboFilter.destructor s).2.output_width = s.output_width ∧
      (LibplaceboFilter.destructor s).2.output_height = s.output_height ∧
      (LibplaceboFilter.destructor s).2.shader_path = s.shader_path ∧
      (LibplaceboFilter.destructor s).2.output_time_base = s.output_time_base) ∧
    (handles_all_null s → (LibplaceboFilter.destructor s).1 = []) := by
  rcases s with ⟨fg, src, sink, dev, w, hh, sp, tb⟩
  cases fg <;> cases src <;> cases sink <;> cases dev <;>
    simp [LibplaceboFilter.destructor, release_applies, handles_all_null]

/-- Witness for C6 at a concrete input: tearing down a never-initialized
session releases nothing. -/
theorem destructor_release_order_witness :
    handles_all_null state0 ∧ (LibplaceboFilter.destructor state0).1 = [] :=
  ⟨by decide, (destructor_release_order state0).2.2.2 (by decide)⟩

/-- C7: if the EOF submission at the start of `flush` fails, `flush`
returns that negative code at once, with the collector unchanged and
without consuming any buffersink outcome (the result does not depend on
the drain steps at all). -/
theorem flush_submit_fail_immediate (s : FilterState) (env : FlushEnv)
    (collector : List AVFrameData) (h : env.add_ret < 0) :
    LibplaceboFilter.flush s env collector = (env.add_ret, collector, s) := by
  unfold LibplaceboFilter.flush
  rw [if_pos h]

/-- Witness for C7 at a concrete input: a failed EOF submission (code -5)
is returned immediately and the collector stays empty even though a frame
is still buffered. -/
theorem flush_submit_fail_immediate_witness :
    env_flush_addfail.add_ret < 0 ∧
    LibplaceboFilter.flush state_init env_flush_addfail [] = (-5, [], state_init) :=
  ⟨by decide, flush_submit_fail_immediate state_init env_flush_addfail [] (by decide)⟩

/-- C10: `process_frame` leaves every session field unchanged on every
outcome: target dimensions, shader path, captured output time base, and
the four handle fields read the same after the call as before it. -/
theorem process_frame_fields_unchanged (s : FilterState) (env : ProcEnv) (f : AVFrameData) :
    (LibplaceboFilter.process_frame s env f).state.output_width = s.output_width ∧
    (LibplaceboFilter.process_frame s env f).state.output_height = s.output_height ∧
    (LibplaceboFilter.process_frame s env f).state.shader_path = s.shader_path ∧
    (LibplaceboFilter.process_frame s env f).state.output_time_base = s.output_time_base ∧
    (LibplaceboFilter.process_frame s env f).state.filter_graph = s.filter_graph ∧
    (LibplaceboFilter.process_frame s env f).state.buffersrc_ctx = s.buffersrc_ctx ∧
    (LibplaceboFilter.process_frame s env f).state.buffersink_ctx = s.buffersink_ctx ∧
    (LibplaceboFilter.process_frame s env f).state.device_ctx = s.device_ctx := by
  rw [process_frame_state_eq]
  exact ⟨rfl, rfl, rfl, rfl, rfl, rfl, rfl, rfl⟩

/-- Drain-loop unrolling: a run of steps that all allocate and retrieve
successfully appends exactly their frames, rescaled, in order, and then
continues with the remaining steps. -/
theorem flush_loop_append (src dst : AVRational) (pre rest : List FlushStep)
    (acc : List AVFrameData)
    (h : ∀ st ∈ pre, st.alloc_ok = true ∧ 0 ≤ st.sink_ret) :
    flush_loop src dst (pre ++ rest) acc =
      flush_loop src dst rest
        (acc ++ pre.map (fun st => rescale_frame src dst st.sink_frame)) := by
  induction pre generalizing acc with
  | nil => simp
  | cons st tl ih =>
    obtain ⟨h1, h2⟩ := h st (List.mem_cons_self st tl)
    have hne1 : ¬ (st.sink_ret = AVERROR_EAGAIN ∨ st.sink_ret = AVERROR_EOF) := by
      unfold AVERROR_EAGAIN AVERROR_EOF; omega
    have hneg : ¬ st.sink_ret < 0 := by omega
    rw [List.cons_append]
    show flush_loop src dst (st :: (tl ++ rest)) acc = _
    rw [flush_loop, if_neg (by simp [h1]), if_neg hne1, if_neg hneg]
    rw [ih _ (fun x hx => h x (List.mem_cons_of_mem st hx))]
    rw [List.map_cons, List.append_assoc]
    rfl

/-- C3: when the pipeline buffers a sequence of frames at flush time
(modelled as a run of successful retrievals followed by a not-yet-ready
or end-of-stream answer), `flush` appends exactly those frames to the
collector in retrieval order, rescaled, terminates the drain loop at the
terminal answer, and returns success 0; with no buffered frames it
returns 0 and appends nothing. -/
theorem flush_drains_buffered_frames (s : FilterState) (env : FlushEnv)
    (collector : List AVFrameData) (pre : List FlushStep) (term : FlushStep)
    (rest : List FlushStep)
    (hsteps : env.steps = pre ++ term :: rest)
    (hpre : ∀ st ∈ pre, st.alloc_ok = true ∧ 0 ≤ st.sink_ret)
    (hterm_alloc : term.alloc_ok = true)
    (hterm : term.sink_ret = AVERROR_EAGAIN ∨ term.sink_ret = AVERROR_EOF)
    (hadd : 0 ≤ env.add_ret) :
    LibplaceboFilter.flush s env collector =
      (0, collector ++ pre.map
            (fun st => rescale_frame env.sink_time_base s.output_time_base st.sink_frame),
        s) := by
  unfold LibplaceboFilter.flush
  rw [if_neg (by omega)]
  rw [hsteps, flush_loop_append _ _ _ _ _ hpre]
  rw [flush_loop, if_neg (by simp [hterm_alloc]), if_pos hterm]

/-- Witness for C3 at concrete inputs: two buffered frames followed by
end-of-stream are appended in order with rescaled PTS and flush returns
success. -/
theorem flush_drains_buffered_frames_witness :
    (∀ st ∈ [step_of fA, step_of fB], st.alloc_ok = true ∧ 0 ≤ st.sink_ret) ∧
    LibplaceboFilter.flush state_init env_drain [] =
      (0, [rescale_frame tb_in tb_out fA, rescale_frame tb_in tb_out fB], state_init) :=
  ⟨by decide,
    flush_drains_buffered_frames state_init env_drain [] [step_of fA, step_of fB]
      step_eof [] rfl (by decide) rfl (Or.inr rfl) (by decide)⟩

/-- C9: `flush` is not atomic on error: when the drain loop hits a fatal
condition (container allocation failure, or a retrieval failure other
than not-yet-ready and end-of-stream) after a run of successful
retrievals, it returns that error with the collector extended by exactly
the frames already retrieved and rescaled — no rollback. -/
theorem flush_error_keeps_drained (s : FilterState) (env : FlushEnv)
    (collector : List AVFrameData) (pre : List FlushStep) (bad : FlushStep)
    (rest : List FlushStep)
    (hsteps : env.steps = pre ++ bad :: rest)
    (hpre : ∀ st ∈ pre, st.alloc_ok = true ∧ 0 ≤ st.sink_ret)
    (hadd : 0 ≤ env.add_ret) :
    (bad.alloc_ok = false →
      LibplaceboFilter.flush s env collector =
        (AVERROR_ENOMEM, collector ++ pre.map
            (fun st => rescale_frame env.sink_time_base s.output_time_base st.sink_frame),
          s)) ∧
    (bad.alloc_ok = true → bad.sink_ret < 0 →
      bad.sink_ret ≠ AVERROR_EAGAIN → bad.sink_ret ≠ AVERROR_EOF →
      LibplaceboFilter.flush s env collector =
        (bad.sink_ret, collector ++ pre.map
            (fun st => rescale_frame env.sink_time_base s.output_time_base st.sink_frame),
          s)) := by
  constructor
  · intro hbad
    unfold LibplaceboFilter.flush
    rw [if_neg (by omega)]
    rw [hsteps, flush_loop_append _ _ _ _ _ hpre]
    rw [flush_loop, if_pos hbad]
  · intro hba hbneg hb1 hb2
    unfold LibplaceboFilter.flush
    rw [if_neg (by omega)]
    rw [hsteps, flush_loop_append _ _ _ _ _ hpre]
    rw [flush_loop, if_neg (by simp [hba]), if_neg (by simp [hb1, hb2]), if_pos hbneg]

/-- Witness for C9 at concrete inputs: one frame is drained, then a fatal
retrieval error -22 occurs; flush returns -22 and the drained frame stays
appended. -/
theorem flush_error_keeps_drained_witness :
    LibplaceboFilter.flush state_init env_err [] =
      (-22, [rescale_frame tb_in tb_out fA], state_init) :=
  (flush_error_keeps_drained state_init env_err [] [step_of fA] step_err []
      rfl (by decide) (by decide)).2 rfl (by decide) (by decide) (by decide)

/-- C4: resolution first tests the shader identifier itself and uses it
verbatim when readable; otherwise it resolves models/<identifier>.glsl
through the resource locator; and when neither the identifier is readable
nor the locator finds the fallback, `init` fails (with the negative
build-failure code) and binds no pipeline, endpoint, or device handle. -/
theorem init_resolution_and_failure (env : InitEnv) (s : FilterState) (tb : AVRational) :
    (env.filepath_is_readable s.shader_path = true →
      resolve_shader_full_path env s.shader_path = some s.shader_path) ∧
    (env.filepath_is_readable s.shader_path = false →
      resolve_shader_full_path env s.shader_path =
        env.find_resource_file ("models/" ++ s.shader_path ++ ".glsl")) ∧
    (env.filepath_is_readable s.shader_path = false →
      env.find_resource_file ("models/" ++ s.shader_path ++ ".glsl") = none →
      handles_all_null s →
      (LibplaceboFilter.init env s tb).1 = build_failure_code ∧
      (LibplaceboFilter.init env s tb).1 < 0 ∧
      handles_all_null (LibplaceboFilter.init env s tb).2) := by
  refine ⟨?_, ?_, ?_⟩
  · intro h
    simp [resolve_shader_full_path, h]
  · intro h
    simp [resolve_shader_full_path, h]
  · intro h1 h2 h3
    have hres : resolve_shader_full_path env s.shader_path = none := by
      simp [resolve_shader_full_path, h1, h2]
    obtain ⟨hg, hs, hk, hd⟩ := h3
    simp [LibplaceboFilter.init, hres, build_failure_code, handles_all_null,
      hg, hs, hk, hd]

/-- Witness for C4 at concrete inputs: an unreadable identifier with an
absent fallback makes `init` fail with no handle bound. -/
theorem init_resolution_and_failure_witness :
    env_fail.filepath_is_readable state0.shader_path = false ∧
    env_fail.find_resource_file ("models/" ++ state0.shader_path ++ ".glsl") = none ∧
    ((LibplaceboFilter.init env_fail state0 tb_out).1 = build_failure_code ∧
      (LibplaceboFilter.init env_fail state0 tb_out).1 < 0 ∧
      handles_all_null (LibplaceboFilter.init env_fail state0 tb_out).2) :=
  ⟨rfl, rfl,
    (init_resolution_and_failure env_fail state0 tb_out).2.2 rfl rfl (by decide)⟩

/-- C8: starting from a fully null (Uninitialized) session, any return
from `init` leaves either all four handles bound (success) or all four
null (failure); and the all-or-none property is preserved by every
subsequent `process_frame` and `flush` call. -/
theorem init_all_or_none (env : InitEnv) (s : FilterState) (tb : AVRational)
    (h : handles_all_null s) :
    (handles_all_non_null (LibplaceboFilter.init env s tb).2 ∨
      handles_all_null (LibplaceboFilter.init env s tb).2) ∧
    (∀ (s2 : FilterState) (penv : ProcEnv) (f : AVFrameData),
      (handles_all_non_null s2 ∨ handles_all_null s2) →
      handles_all_non_null (LibplaceboFilter.process_frame s2 penv f).state ∨
      handles_all_null (LibplaceboFilter.process_frame s2 penv f).state) ∧
    (∀ (s2 : FilterState) (fenv : FlushEnv) (c : List AVFrameData),
      (handles_all_non_null s2 ∨ handles_all_null s2) →
      handles_all_non_null (LibplaceboFilter.flush s2 fenv c).2.2 ∨
      handles_all_null (LibplaceboFilter.flush s2 fenv c).2.2) := by
  obtain ⟨hg, hs, hk, hd⟩ := h
  refine ⟨?_, ?_, ?_⟩
  · rcases hres : resolve_shader_full_path env s.shader_path with _ | p
    · exact Or.inr (by simp [LibplaceboFilter.init, hres, handles_all_null, hg, hs, hk, hd])
    · rcases hbuild : env.init_libplacebo p with _ | ⟨g, src, sink, dev⟩
      · exact Or.inr
          (by simp [LibplaceboFilter.init, hres, hbuild, handles_all_null, hg, hs, hk, hd])
      · exact Or.inl
          (by simp [LibplaceboFilter.init, hres, hbuild, handles_all_non_null])
  · intro s2 penv f hinv
    rw [process_frame_state_eq]
    exact hinv
  · intro s2 fenv c hinv
    rw [flush_state_eq]
    exact hinv

/-- Witness for C8 at concrete inputs: a fresh session run through a
failing initialize satisfies the all-or-none handle property. -/
theorem init_all_or_none_witness :
    handles_all_null state0 ∧
    (handles_all_non_null (LibplaceboFilter.init env_fail state0 tb_out).2 ∨
      handles_all_null (LibplaceboFilter.init env_fail state0 tb_out).2) :=
  ⟨by decide, (init_all_or_none env_fail state0 tb_out (by decide)).1⟩

/-- Exactness of `av_rescale_rnd` under divisibility: when c divides a*b
the near-rounding changes nothing and the result times c recovers a*b. -/
theorem av_rescale_rnd_exact (a b c : Int) (hb : 0 ≤ b) (hc : 0 < c)
    (hd : c ∣ a * b) : av_rescale_rnd a b c * c = a * b := by
  obtain ⟨k, hk⟩ := hd
  have hguard : ¬ (c ≤ 0 ∨ b < 0) := by omega
  have hdiv0 : c / 2 / c = 0 :=
    Int.ediv_eq_zero_of_lt (by omega) (by omega)
  unfold av_rescale_rnd
  rw [if_neg hguard]
  by_cases ha : a < 0
  · rw [if_pos ha]
    have hk2 : (-a) * b = c * (-k) := by rw [neg_mul, hk, mul_neg]
    rw [hk2, add_comm (c * (-k)) (c / 2),
      Int.add_mul_ediv_left _ _ (by omega : c ≠ 0), hdiv0, zero_add, neg_neg,
      hk]
    exact mul_comm k c
  · rw [if_neg ha]
    rw [hk, add_comm (c * k) (c / 2),
      Int.add_mul_ediv_left _ _ (by omega : c ≠ 0), hdiv0, zero_add]
    exact mul_comm k c

/-- Monotonicity of `av_rescale_rnd` in the rescaled value for a fixed
nonnegative factor b and positive divisor c. -/
theorem av_rescale_rnd_mono (b c : Int) (hb : 0 ≤ b) (hc : 0 < c)
    (a1 a2 : Int) (h : a1 ≤ a2) :
    av_rescale_rnd a1 b c ≤ av_rescale_rnd a2 b c := by
  have hguard : ¬ (c ≤ 0 ∨ b < 0) := by omega
  unfold av_rescale_rnd
  rw [if_neg hguard, if_neg hguard]
  by_cases h1 : a1 < 0
  · by_cases h2 : a2 < 0
    · rw [if_pos h1, if_pos h2]
      have hmul : (-a2) * b ≤ (-a1) * b :=
        mul_le_mul_of_nonneg_right (by omega) hb
      have := Int.ediv_le_ediv hc (add_le_add_right hmul (c / 2))
      omega
    · rw [if_pos h1, if_neg h2]
      have hL : 0 ≤ ((-a1) * b + c / 2) / c :=
        Int.ediv_nonneg (add_nonneg (mul_nonneg (by omega) hb) (by omega)) (by omega)
      have hR : 0 ≤ (a2 * b + c / 2) / c :=
        Int.ediv_nonneg (add_nonneg (mul_nonneg (by omega) hb) (by omega)) (by omega)
      omega
  · rw [if_neg h1, if_neg (by omega : ¬ a2 < 0)]
    exact Int.ediv_le_ediv hc (add_le_add_right (mul_le_mul_of_nonneg_right h hb) (c / 2))

/-- Every frame in the collector after the drain loop either was there
before or is a rescaled retrieved frame from one of the steps. -/
theorem flush_loop_mem (src dst : AVRational) (steps : List FlushStep)
    (acc : List AVFrameData) (g : AVFrameData)
    (hg : g ∈ (flush_loop src dst steps acc).2) :
    g ∈ acc ∨ ∃ st ∈ steps, g = rescale_frame src dst st.sink_frame := by
  induction steps generalizing acc with
  | nil =>
    exact Or.inl (by simpa [flush_loop] using hg)
  | cons st tl ih =>
    rw [flush_loop] at hg
    by_cases hA : st.alloc_ok = false
    · rw [if_pos hA] at hg
      exact Or.inl hg
    · rw [if_neg hA] at hg
      by_cases hB : st.sink_ret = AVERROR_EAGAIN ∨ st.sink_ret = AVERROR_EOF
      · rw [if_pos hB] at hg
        exact Or.inl hg
      · rw [if_neg hB] at hg
        by_cases hC : st.sink_ret < 0
        · rw [if_pos hC] at hg
          exact Or.inl hg
        · rw [if_neg hC] at hg
          rcases ih _ hg with hacc | ⟨st2, hst2, hgeq⟩
          · rcases List.mem_append.mp hacc with hin | hin
            · exact Or.inl hin
            · exact Or.inr ⟨st, List.mem_cons_self st tl, by simpa using hin⟩
          · exact Or.inr ⟨st2, List.mem_cons_of_mem st hst2, hgeq⟩

/-- C5: every emitted frame, in `process_frame` and in `flush`, carries a
PTS rescaled from the buffersink time base to the captured output time
base by `av_rescale_q`; for positive time bases the rescale is exact
whenever dstNum*srcDen divides pts*srcNum*dstDen, and it is monotonic in
the input PTS. -/
theorem pts_rescale_exact_monotonic (bq cq : AVRational)
    (h1 : 0 < bq.num) (h2 : 0 < bq.den) (h3 : 0 < cq.num) (h4 : 0 < cq.den) :
    (∀ a : Int, (cq.num * bq.den) ∣ (a * bq.num * cq.den) →
      av_rescale_q a bq cq * (cq.num * bq.den) = a * bq.num * cq.den) ∧
    (∀ a1 a2 : Int, a1 ≤ a2 → av_rescale_q a1 bq cq ≤ av_rescale_q a2 bq cq) ∧
    (∀ (s : FilterState) (env : ProcEnv) (f g : AVFrameData),
      (LibplaceboFilter.process_frame s env f).result = ProcessResult.frame g →
      g.pts = av_rescale_q env.sink_frame.pts env.sink_time_base s.output_time_base) ∧
    (∀ (steps : List FlushStep) (acc : List AVFrameData) (g : AVFrameData),
      g ∈ (flush_loop bq cq steps acc).2 →
      g ∈ acc ∨ ∃ st ∈ steps, g.pts = av_rescale_q st.sink_frame.pts bq cq) := by
  refine ⟨?_, ?_, ?_, ?_⟩
  · intro a hd
    rw [mul_assoc] at hd ⊢
    exact av_rescale_rnd_exact a (bq.num * cq.den) (cq.num * bq.den)
      (mul_nonneg h1.le h4.le) (mul_pos h3 h2) hd
  · intro a1 a2 h
    exact av_rescale_rnd_mono (bq.num * cq.den) (cq.num * bq.den)
      (mul_nonneg h1.le h4.le) (mul_pos h3 h2) a1 a2 h
  · intro s env f g hres
    unfold LibplaceboFilter.process_frame at hres
    split at hres
    · simp at hres
    · split at hres
      · simp at hres
      · split at hres
        · split at hres <;> simp at hres
        · simp only [ProcessResult.frame.injEq] at hres
          subst hres
          rfl
  · intro steps acc g hg
    rcases flush_loop_mem bq cq steps acc g hg with hin | ⟨st, hst, hgeq⟩
    · exact Or.inl hin
    · exact Or.inr ⟨st, hst, by rw [hgeq]; rfl⟩

/-- Witness for C5 at concrete inputs: rescaling PTS 5 from 1/25 to 1/30
units is exact (5 * 30 / 25 = 6, and 6 * 25 = 150 = 5 * 1 * 30). -/
theorem pts_rescale_exact_monotonic_witness :
    0 < tb_in.num ∧
    av_rescale_q 5 tb_in tb_out * (tb_out.num * tb_in.den) = 5 * tb_in.num * tb_out.den :=
  ⟨by decide,
    (pts_rescale_exact_monotonic tb_in tb_out (by decide) (by decide) (by decide)
      (by decide)).1 5 ⟨6, by decide⟩⟩
